import Mathlib

/-!
Verification of the floppi drone lift calculator against its specification.

The Lean definitions below are a shallow embedding of the computational core
of `src/optimization_tools/lift_calculator.py`: the physics model
(`DroneCalculator`), the whole-vehicle evaluation (`update_calculations`)
and the grid optimizer (`run_optimization`).  Python floats are modelled as
real numbers; every formula is transcribed directly from the source.
-/

open Real

/-- Air density constant from `DroneCalculator.__init__` (1.225 kg/m³). -/
noncomputable def air_density : ℝ := 1.225

/-- Gravity constant from `DroneCalculator.__init__` (unused by the formulas). -/
noncomputable def gravity : ℝ := 9.81

/-- Embedding of `DroneCalculator.calculate_propeller_thrust`.
`advance_ratio` is the guarded ratio from the source, and both `max(0, ...)`
clamps are kept. -/
noncomputable def calculate_propeller_thrust
    (diameter pitch rpm efficiency : ℝ) : ℝ :=
  let diameter_m := diameter * 0.0254
  let pitch_m := pitch * 0.0254
  let advance_ratio :=
    if 0 < rpm then (rpm * pitch_m / 60) / (rpm * diameter_m / 60) else 0
  let disk_area := Real.pi * (diameter_m / 2) ^ 2
  let tip_speed := rpm / 60 * Real.pi * diameter_m
  let thrust_coeff := max 0 (0.1 * (1 - advance_ratio) * efficiency)
  let thrust_newtons := thrust_coeff * air_density * disk_area * tip_speed ^ 2
  let thrust_grams := thrust_newtons * 101.97
  max 0 thrust_grams

/-- Embedding of `DroneCalculator.calculate_motor_rpm`. -/
noncomputable def calculate_motor_rpm (voltage kv load_current : ℝ) : ℝ :=
  kv * max 0 (voltage - load_current * 0.1)

/-- Embedding of `DroneCalculator.calculate_power_consumption`.
Python's `** 1.5` on a nonnegative float is real `rpow`. -/
noncomputable def calculate_power_consumption
    (thrust_grams motor_efficiency : ℝ) : ℝ :=
  (thrust_grams / 101.97) ^ (1.5 : ℝ) / (motor_efficiency * 10)

/-- Embedding of `DroneCalculator.calculate_flight_time`. -/
noncomputable def calculate_flight_time
    (battery_capacity_mah total_power_watts voltage : ℝ) : ℝ :=
  if total_power_watts ≤ 0 then 0
  else battery_capacity_mah / 1000 / (total_power_watts / voltage) * 60

/-- For a nonnegative base, real exponentiation by 1.5 is `x * sqrt x`. -/
theorem rpow_onePointFive (x : ℝ) (hx : 0 ≤ x) :
    x ^ (1.5 : ℝ) = x * Real.sqrt x := by
  rcases eq_or_lt_of_le hx with h | h
  · rw [← h, Real.zero_rpow (by norm_num), Real.sqrt_zero, mul_zero]
  · have h15 : (1.5 : ℝ) = 1 + 1 / 2 := by norm_num
    rw [h15, Real.rpow_add h, Real.rpow_one, ← Real.sqrt_eq_rpow]

/-- C6: `calculate_flight_time` returns 0 for every capacity and voltage
whenever the power is ≤ 0, and otherwise returns
`(capacity / 1000) / (power / voltage) * 60`. -/
theorem flight_time_spec (cap p v : ℝ) :
    (p ≤ 0 → calculate_flight_time cap p v = 0) ∧
    (0 < p → 0 < v → calculate_flight_time cap p v = cap / 1000 / (p / v) * 60) := by
  constructor
  · intro hp
    simp [calculate_flight_time, hp]
  · intro hp _
    rw [calculate_flight_time, if_neg (not_le.mpr hp)]

/-- Witness for C6 at concrete inputs: zero power gives zero minutes, and at
capacity 5000 mAh, 2 W and 10 V the documented formula is returned. -/
theorem flight_time_spec_witness :
    calculate_flight_time 5000 0 10 = 0 ∧
    calculate_flight_time 5000 2 10 = 5000 / 1000 / (2 / 10) * 60 :=
  ⟨(flight_time_spec 5000 0 10).1 (by norm_num),
   (flight_time_spec 5000 2 10).2 (by norm_num) (by norm_num)⟩

/-- The final `max(0, ...)` clamp makes thrust unconditionally nonnegative. -/
lemma thrust_nonneg (d p rpm eff : ℝ) :
    0 ≤ calculate_propeller_thrust d p rpm eff :=
  le_max_left 0 _

/-- At rpm = 0 the tip speed vanishes, so the thrust is exactly 0. -/
lemma thrust_rpm_zero (d p eff : ℝ) :
    calculate_propeller_thrust d p 0 eff = 0 := by
  simp [calculate_propeller_thrust]

/-- With zero voltage and no load the motor model returns rpm 0. -/
lemma motor_rpm_zero_voltage (kv : ℝ) : calculate_motor_rpm 0 kv 0 = 0 := by
  simp [calculate_motor_rpm]

/-- Zero thrust draws zero power: `0 ** 1.5 = 0` in the power model. -/
lemma power_zero (eff : ℝ) : calculate_power_consumption 0 eff = 0 := by
  rw [calculate_power_consumption, zero_div, Real.zero_rpow (by norm_num),
    zero_div]

/-- C7: propeller thrust is nonnegative for nonnegative diameter, pitch and
rpm, and is exactly 0 at rpm = 0 for every diameter, pitch and efficiency. -/
theorem propeller_thrust_spec (d p rpm eff : ℝ) :
    (0 ≤ d → 0 ≤ p → 0 ≤ rpm → 0 ≤ calculate_propeller_thrust d p rpm eff) ∧
    calculate_propeller_thrust d p 0 eff = 0 :=
  ⟨fun _ _ _ => thrust_nonneg d p rpm eff, thrust_rpm_zero d p eff⟩

/-- Witness for C7: thrust is nonnegative at a 10×4.5 prop spinning at
7000 rpm, and zero at rpm = 0. -/
theorem propeller_thrust_spec_witness :
    0 ≤ calculate_propeller_thrust 10 4.5 7000 0.8 ∧
    calculate_propeller_thrust 10 4.5 0 0.8 = 0 :=
  ⟨(propeller_thrust_spec 10 4.5 7000 0.8).1 (by norm_num) (by norm_num)
     (by norm_num),
   (propeller_thrust_spec 10 4.5 0 0.8).2⟩

/-- C8: motor rpm is `kv * max 0 (voltage - load_current * 0.1)`, and with no
load current it is exactly `kv * voltage` for every nonnegative voltage. -/
theorem motor_rpm_spec (v kv lc : ℝ) :
    calculate_motor_rpm v kv lc = kv * max 0 (v - lc * 0.1) ∧
    (0 ≤ v → calculate_motor_rpm v kv 0 = kv * v) := by
  refine ⟨rfl, fun hv => ?_⟩
  rw [calculate_motor_rpm]
  rw [zero_mul, sub_zero, max_eq_right hv]

/-- Witness for C8 at 11.1 V and kv = 1000: unloaded rpm is exactly 11100. -/
theorem motor_rpm_spec_witness : calculate_motor_rpm 11.1 1000 0 = 1000 * 11.1 :=
  (motor_rpm_spec 11.1 1000 0).2 (by norm_num)

/-- C9: power consumption is exactly `(thrust/101.97)^1.5 / (eff * 10)` with
no unit correction, for nonnegative thrust and positive efficiency. -/
theorem power_consumption_spec (t eff : ℝ) (_ht : 0 ≤ t) (_heff : 0 < eff) :
    calculate_power_consumption t eff = (t / 101.97) ^ (1.5 : ℝ) / (eff * 10) :=
  rfl

/-- Witness for C9 at thrust 101.97 g and efficiency 0.85. -/
theorem power_consumption_spec_witness :
    calculate_power_consumption 101.97 0.85 =
      (101.97 / 101.97) ^ (1.5 : ℝ) / (0.85 * 10) :=
  power_consumption_spec 101.97 0.85 (by norm_num) (by norm_num)

/-- A full drone configuration: the input record read from the GUI spinboxes
in `update_calculations`.  Efficiencies are stored as percentages, exactly as
the spinboxes hold them (the code divides by 100 at the call sites). -/
structure VehicleConfiguration where
  propDiameter : ℝ
  propPitch : ℝ
  propEfficiency : ℝ
  motorKv : ℝ
  motorEfficiency : ℝ
  motorWeight : ℝ
  numMotors : ℝ
  batteryVoltage : ℝ
  batteryCapacity : ℝ
  batteryWeight : ℝ
  escWeight : ℝ
  frameWeight : ℝ
  flightControllerWeight : ℝ
  cameraWeight : ℝ
  additionalPayload : ℝ
  wiringWeight : ℝ

/-- The six derived result fields displayed by `update_calculations`. -/
structure PerformanceResult where
  totalWeight : ℝ
  totalThrust : ℝ
  twr : ℝ
  totalPower : ℝ
  flightTime : ℝ
  maxPayload : ℝ

/-- Embedding of the calculation sequence of
`DroneCalculatorGUI.update_calculations` (lines 380-417): the
ConfigurationEvaluator of the specification. -/
noncomputable def evaluate (cfg : VehicleConfiguration) : PerformanceResult :=
  let rpm := calculate_motor_rpm cfg.batteryVoltage cfg.motorKv 0
  let thrust_per_motor :=
    calculate_propeller_thrust cfg.propDiameter cfg.propPitch rpm
      (cfg.propEfficiency / 100)
  let total_thrust := thrust_per_motor * cfg.numMotors
  let total_weight :=
    cfg.motorWeight * cfg.numMotors + cfg.batteryWeight +
      cfg.escWeight * cfg.numMotors + cfg.frameWeight +
      cfg.flightControllerWeight + cfg.cameraWeight +
      cfg.additionalPayload + cfg.wiringWeight
  let twr := if 0 < total_weight then total_thrust / total_weight else 0
  let power_per_motor :=
    calculate_power_consumption thrust_per_motor (cfg.motorEfficiency / 100)
  let total_power := power_per_motor * cfg.numMotors
  let flight_time :=
    calculate_flight_time cfg.batteryCapacity total_power cfg.batteryVoltage
  let max_payload :=
    max 0 (total_thrust / 2 - (total_weight - cfg.additionalPayload))
  ⟨total_weight, total_thrust, twr, total_power, flight_time, max_payload⟩

lemma evaluate_totalWeight (cfg : VehicleConfiguration) :
    (evaluate cfg).totalWeight =
      cfg.motorWeight * cfg.numMotors + cfg.batteryWeight +
        cfg.escWeight * cfg.numMotors + cfg.frameWeight +
        cfg.flightControllerWeight + cfg.cameraWeight +
        cfg.additionalPayload + cfg.wiringWeight := rfl

lemma evaluate_totalThrust (cfg : VehicleConfiguration) :
    (evaluate cfg).totalThrust =
      calculate_propeller_thrust cfg.propDiameter cfg.propPitch
        (calculate_motor_rpm cfg.batteryVoltage cfg.motorKv 0)
        (cfg.propEfficiency / 100) * cfg.numMotors := rfl

lemma evaluate_twr (cfg : VehicleConfiguration) :
    (evaluate cfg).twr =
      if 0 < (evaluate cfg).totalWeight then
        (evaluate cfg).totalThrust / (evaluate cfg).totalWeight
      else 0 := rfl

lemma evaluate_totalPower (cfg : VehicleConfiguration) :
    (evaluate cfg).totalPower =
      calculate_power_consumption
        (calculate_propeller_thrust cfg.propDiameter cfg.propPitch
          (calculate_motor_rpm cfg.batteryVoltage cfg.motorKv 0)
          (cfg.propEfficiency / 100))
        (cfg.motorEfficiency / 100) * cfg.numMotors := rfl

lemma evaluate_flightTime (cfg : VehicleConfiguration) :
    (evaluate cfg).flightTime =
      calculate_flight_time cfg.batteryCapacity (evaluate cfg).totalPower
        cfg.batteryVoltage := rfl

/-- The regression scenario of the specification (section 8): the default
values of every spinbox in the GUI. -/
noncomputable def regressionConfig : VehicleConfiguration :=
  ⟨10, 4.5, 80, 1000, 85, 50, 4, 11.1, 5000, 300, 25, 200, 30, 100, 0, 50⟩

/-- C5 counterexample: on the regression scenario
(4 motors of 50 g, 300 g battery, 25 g ESC each, 200 g frame, 30 g flight
controller, 100 g camera, 0 payload, 50 g wiring) the evaluator's total
weight is not 880 g: the stated sum 50·4+300+25·4+200+30+100+0+50 is 980. -/
theorem total_weight_regression_not_880 :
    (evaluate regressionConfig).totalWeight ≠ 880 := by
  rw [evaluate_totalWeight]
  norm_num [regressionConfig]

/-- C5 amended: the evaluator's total weight is the sum of the fixed weight
fields plus per-motor motor and ESC weight plus battery weight, and on the
regression scenario it is exactly 980 g. -/
theorem total_weight_spec :
    (∀ cfg : VehicleConfiguration,
      (evaluate cfg).totalWeight =
        (cfg.frameWeight + cfg.flightControllerWeight + cfg.cameraWeight +
          cfg.additionalPayload + cfg.wiringWeight) +
        cfg.motorWeight * cfg.numMotors + cfg.escWeight * cfg.numMotors +
        cfg.batteryWeight) ∧
    (evaluate regressionConfig).totalWeight = 980 := by
  constructor
  · intro cfg
    rw [evaluate_totalWeight]
    ring
  · rw [evaluate_totalWeight]
    norm_num [regressionConfig]

/-- Any configuration with zero motors or zero battery voltage evaluates to
zero thrust, zero thrust-to-weight ratio, zero power and zero flight time. -/
lemma evaluate_degenerate (cfg : VehicleConfiguration)
    (h : cfg.numMotors = 0 ∨ cfg.batteryVoltage = 0) :
    (evaluate cfg).totalThrust = 0 ∧ (evaluate cfg).twr = 0 ∧
    (evaluate cfg).totalPower = 0 ∧ (evaluate cfg).flightTime = 0 := by
  have hthrust : (evaluate cfg).totalThrust = 0 := by
    rw [evaluate_totalThrust]
    rcases h with h | h
    · rw [h, mul_zero]
    · rw [h, motor_rpm_zero_voltage, thrust_rpm_zero, zero_mul]
  have hpower : (evaluate cfg).totalPower = 0 := by
    rw [evaluate_totalPower]
    rcases h with h | h
    · rw [h, mul_zero]
    · rw [h, motor_rpm_zero_voltage, thrust_rpm_zero, power_zero, zero_mul]
  refine ⟨hthrust, ?_, hpower, ?_⟩
  · rw [evaluate_twr, hthrust]
    split
    · exact zero_div _
    · rfl
  · rw [evaluate_flightTime, hpower, calculate_flight_time, if_pos le_rfl]

/-- C10: the thrust-to-weight ratio is total thrust over total weight when
the total weight is positive and 0 otherwise, and a configuration with zero
motors or zero voltage yields zero thrust, twr, power and flight time. -/
theorem twr_guard_spec (cfg : VehicleConfiguration) :
    ((0 < (evaluate cfg).totalWeight →
        (evaluate cfg).twr =
          (evaluate cfg).totalThrust / (evaluate cfg).totalWeight) ∧
      ((evaluate cfg).totalWeight ≤ 0 → (evaluate cfg).twr = 0)) ∧
    (cfg.numMotors = 0 ∨ cfg.batteryVoltage = 0 →
      (evaluate cfg).totalThrust = 0 ∧ (evaluate cfg).twr = 0 ∧
      (evaluate cfg).totalPower = 0 ∧ (evaluate cfg).flightTime = 0) := by
  refine ⟨⟨fun h => ?_, fun h => ?_⟩, evaluate_degenerate cfg⟩
  · rw [evaluate_twr, if_pos h]
  · rw [evaluate_twr, if_neg (not_lt.mpr h)]

/-- The regression configuration with the battery voltage set to zero. -/
noncomputable def zeroVoltConfig : VehicleConfiguration :=
  { regressionConfig with batteryVoltage := 0 }

/-- Witness for C10: the positive-weight guard on the regression scenario and
the zero-voltage scenario, both concrete. -/
theorem twr_guard_spec_witness :
    (evaluate regressionConfig).twr =
      (evaluate regressionConfig).totalThrust /
        (evaluate regressionConfig).totalWeight ∧
    (evaluate zeroVoltConfig).totalThrust = 0 ∧
    (evaluate zeroVoltConfig).twr = 0 ∧
    (evaluate zeroVoltConfig).totalPower = 0 ∧
    (evaluate zeroVoltConfig).flightTime = 0 :=
  ⟨(twr_guard_spec regressionConfig).1.1
      (by rw [evaluate_totalWeight]; norm_num [regressionConfig]),
   (twr_guard_spec zeroVoltConfig).2 (Or.inr rfl)⟩

/-- One candidate tuple of the optimizer's Cartesian grid: the four values
iterated by the nested loops in `run_optimization`. -/
structure Candidate where
  propDiameter : ℝ
  motorKv : ℝ
  batteryCapacity : ℝ
  motorCount : ℝ

/-- The four optimization checkboxes of the Optimize Mode tab. -/
structure OptimizationAxes where
  propDiameter : Bool
  motorKv : Bool
  batteryCapacity : Bool
  numMotors : Bool

/-- Whether any parameter was selected for optimization
(`if not optimize_params` in `run_optimization`). -/
def OptimizationAxes.anySelected (ax : OptimizationAxes) : Bool :=
  ax.propDiameter || ax.motorKv || ax.batteryCapacity || ax.numMotors

/-- The constraint inputs of the Optimize Mode tab. -/
structure OptimizationConstraints where
  maxWeight : ℝ
  minFlightTime : ℝ
  maxCost : ℝ

/-- The five metrics the optimizer computes for one candidate. -/
structure OptMetrics where
  totalThrust : ℝ
  totalWeight : ℝ
  twr : ℝ
  power : ℝ
  flightTime : ℝ

/-- The per-candidate metrics computed by the body of the nested loops in
`run_optimization` (lines 597-617).  Note the source passes the default
efficiencies (0.8 and 0.85) to the thrust and power models and omits the
ESC weight from the weight sum. -/
noncomputable def optCandidateMetrics (t : VehicleConfiguration)
    (c : Candidate) : OptMetrics :=
  let rpm := calculate_motor_rpm t.batteryVoltage c.motorKv 0
  let thrust_per_motor :=
    calculate_propeller_thrust c.propDiameter t.propPitch rpm 0.8
  let total_thrust := thrust_per_motor * c.motorCount
  let total_weight :=
    t.motorWeight * c.motorCount + t.batteryWeight + t.frameWeight +
      t.flightControllerWeight + t.cameraWeight + t.additionalPayload +
      t.wiringWeight
  let twr := if 0 < total_weight then total_thrust / total_weight else 0
  let power := calculate_power_consumption thrust_per_motor 0.85 * c.motorCount
  let flight_time := calculate_flight_time c.batteryCapacity power t.batteryVoltage
  ⟨total_thrust, total_weight, twr, power, flight_time⟩

/-- The optimizer's score
`(twr * 30) + (flight_time * 2) - (total_weight * 0.01) - (power * 0.1)`. -/
noncomputable def optScore (t : VehicleConfiguration) (c : Candidate) : ℝ :=
  (optCandidateMetrics t c).twr * 30 + (optCandidateMetrics t c).flightTime * 2 -
    (optCandidateMetrics t c).totalWeight * 0.01 -
    (optCandidateMetrics t c).power * 0.1

/-- The `best_config` dictionary of `run_optimization`: the winning tuple,
its metrics and its score. -/
structure BestConfig where
  candidate : Candidate
  metrics : OptMetrics
  score : ℝ

/-- The candidate lists of `run_optimization`: the fixed four-element list
when a parameter is selected, otherwise the singleton template value; the
nested loops iterate diameter outermost and motor count innermost. -/
noncomputable def candidateGrid (t : VehicleConfiguration)
    (ax : OptimizationAxes) : List Candidate :=
  let prop_diameters := if ax.propDiameter then [8, 10, 12, 14] else [t.propDiameter]
  let motor_kvs := if ax.motorKv then [800, 1000, 1200, 1500] else [t.motorKv]
  let battery_caps :=
    if ax.batteryCapacity then [3000, 5000, 8000, 10000] else [t.batteryCapacity]
  let motor_counts := if ax.numMotors then [3, 4, 6, 8] else [t.numMotors]
  prop_diameters.flatMap fun d =>
    motor_kvs.flatMap fun kv =>
      battery_caps.flatMap fun cap =>
        motor_counts.map fun n => ⟨d, kv, cap, n⟩

/-- One iteration of the optimizer loop: skip a candidate that breaks a
constraint, otherwise replace the best when the score strictly exceeds the
running best score and twr is at least 1. -/
noncomputable def optStep (t : VehicleConfiguration)
    (cons : OptimizationConstraints) (s : Option BestConfig × ℝ)
    (c : Candidate) : Option BestConfig × ℝ :=
  let m := optCandidateMetrics t c
  if cons.maxWeight < m.totalWeight then s
  else if m.flightTime < cons.minFlightTime then s
  else if s.2 < optScore t c ∧ 1 ≤ m.twr then
    (some ⟨c, m, optScore t c⟩, optScore t c)
  else s

/-- The three possible outcomes of `run_optimization`: the early return when
no parameter is selected, the infeasible message, or a best configuration. -/
inductive OptimizationOutcome where
  | noParams
  | infeasible
  | found (best : BestConfig)

/-- Embedding of `DroneCalculatorGUI.run_optimization` (lines 561-659):
early return when nothing is selected, otherwise fold the loop body over the
grid starting from `best_config = None`, `best_score = 0`. -/
noncomputable def runOptimization (t : VehicleConfiguration)
    (ax : OptimizationAxes) (cons : OptimizationConstraints) :
    OptimizationOutcome :=
  if ax.anySelected = true then
    match ((candidateGrid t ax).foldl (optStep t cons) (none, 0)).1 with
    | some b => OptimizationOutcome.found b
    | none => OptimizationOutcome.infeasible
  else OptimizationOutcome.noParams

/-- Modelled from the spec: "for each candidate tuple, build a
VehicleConfiguration" — the template with the tuple substituted. -/
noncomputable def substituteCandidate (t : VehicleConfiguration)
    (c : Candidate) : VehicleConfiguration :=
  { t with
    propDiameter := c.propDiameter
    motorKv := c.motorKv
    batteryCapacity := c.batteryCapacity
    numMotors := c.motorCount }

/-- The configuration actually priced by the optimizer loop: ESC weight
dropped, efficiencies replaced by the physics-model defaults (80 % prop,
85 % motor). -/
noncomputable def withOptimizerDefaults (cfg : VehicleConfiguration) :
    VehicleConfiguration :=
  { cfg with escWeight := 0, propEfficiency := 80, motorEfficiency := 85 }

lemma optMetrics_totalThrust (t : VehicleConfiguration) (c : Candidate) :
    (optCandidateMetrics t c).totalThrust =
      calculate_propeller_thrust c.propDiameter t.propPitch
        (calculate_motor_rpm t.batteryVoltage c.motorKv 0) 0.8 *
        c.motorCount := rfl

lemma optMetrics_totalWeight (t : VehicleConfiguration) (c : Candidate) :
    (optCandidateMetrics t c).totalWeight =
      t.motorWeight * c.motorCount + t.batteryWeight + t.frameWeight +
        t.flightControllerWeight + t.cameraWeight + t.additionalPayload +
        t.wiringWeight := rfl

lemma optMetrics_twr (t : VehicleConfiguration) (c : Candidate) :
    (optCandidateMetrics t c).twr =
      if 0 < (optCandidateMetrics t c).totalWeight then
        (optCandidateMetrics t c).totalThrust /
          (optCandidateMetrics t c).totalWeight
      else 0 := rfl

lemma optMetrics_power (t : VehicleConfiguration) (c : Candidate) :
    (optCandidateMetrics t c).power =
      calculate_power_consumption
        (calculate_propeller_thrust c.propDiameter t.propPitch
          (calculate_motor_rpm t.batteryVoltage c.motorKv 0) 0.8) 0.85 *
        c.motorCount := rfl

lemma optMetrics_flightTime (t : VehicleConfiguration) (c : Candidate) :
    (optCandidateMetrics t c).flightTime =
      calculate_flight_time c.batteryCapacity (optCandidateMetrics t c).power
        t.batteryVoltage := rfl

/-- C1 counterexample: on the regression template with its own tuple
substituted, the optimizer's total weight (880, without the ESC term)
differs from the evaluator's total weight on the built configuration (980),
so the optimizer's metrics are not those of `evaluate`. -/
theorem optimizer_metrics_mismatch :
    (optCandidateMetrics regressionConfig ⟨10, 1000, 5000, 4⟩).totalWeight ≠
      (evaluate (substituteCandidate regressionConfig
        ⟨10, 1000, 5000, 4⟩)).totalWeight := by
  rw [optMetrics_totalWeight, evaluate_totalWeight]
  norm_num [regressionConfig, substituteCandidate]

/-- C1 amended: the metrics the optimizer computes for a candidate tuple are
exactly those of `evaluate` on the substituted configuration with the ESC
weight dropped and the efficiencies replaced by the defaults 0.8 and 0.85. -/
theorem optimizer_refines_evaluate (t : VehicleConfiguration) (c : Candidate) :
    (optCandidateMetrics t c).totalThrust =
      (evaluate (withOptimizerDefaults (substituteCandidate t c))).totalThrust ∧
    (optCandidateMetrics t c).totalWeight =
      (evaluate (withOptimizerDefaults (substituteCandidate t c))).totalWeight ∧
    (optCandidateMetrics t c).twr =
      (evaluate (withOptimizerDefaults (substituteCandidate t c))).twr ∧
    (optCandidateMetrics t c).power =
      (evaluate (withOptimizerDefaults (substituteCandidate t c))).totalPower ∧
    (optCandidateMetrics t c).flightTime =
      (evaluate (withOptimizerDefaults (substituteCandidate t c))).flightTime := by
  have htpm : calculate_propeller_thrust
      (withOptimizerDefaults (substituteCandidate t c)).propDiameter
      (withOptimizerDefaults (substituteCandidate t c)).propPitch
      (calculate_motor_rpm
        (withOptimizerDefaults (substituteCandidate t c)).batteryVoltage
        (withOptimizerDefaults (substituteCandidate t c)).motorKv 0)
      ((withOptimizerDefaults (substituteCandidate t c)).propEfficiency / 100) =
      calculate_propeller_thrust c.propDiameter t.propPitch
        (calculate_motor_rpm t.batteryVoltage c.motorKv 0) 0.8 := by
    show calculate_propeller_thrust c.propDiameter t.propPitch
      (calculate_motor_rpm t.batteryVoltage c.motorKv 0) ((80 : ℝ) / 100) = _
    norm_num
  have hT : (evaluate (withOptimizerDefaults (substituteCandidate t c))).totalThrust =
      (optCandidateMetrics t c).totalThrust := by
    rw [evaluate_totalThrust, optMetrics_totalThrust, htpm]
    rfl
  have hW : (evaluate (withOptimizerDefaults (substituteCandidate t c))).totalWeight =
      (optCandidateMetrics t c).totalWeight := by
    rw [evaluate_totalWeight, optMetrics_totalWeight]
    show t.motorWeight * c.motorCount + t.batteryWeight + 0 * c.motorCount +
      t.frameWeight + t.flightControllerWeight + t.cameraWeight +
      t.additionalPayload + t.wiringWeight = _
    ring
  have hP : (evaluate (withOptimizerDefaults (substituteCandidate t c))).totalPower =
      (optCandidateMetrics t c).power := by
    rw [evaluate_totalPower, optMetrics_power, htpm]
    show calculate_power_consumption _ ((85 : ℝ) / 100) * c.motorCount = _
    norm_num
  refine ⟨hT.symm, hW.symm, ?_, hP.symm, ?_⟩
  · rw [optMetrics_twr, evaluate_twr, hT, hW]
  · rw [optMetrics_flightTime, evaluate_flightTime, hP]
    rfl

/-- C4 counterexample: with no parameter selected and a template meeting the
constraints, the code returns the early "no parameters selected" outcome,
not a scored outcome equal to the template's evaluation. -/
theorem no_params_cex :
    runOptimization zeroVoltConfig ⟨false, false, false, false⟩ ⟨2000, 0, 500⟩ =
      OptimizationOutcome.noParams ∧
    (evaluate zeroVoltConfig).totalWeight ≤ (2000 : ℝ) ∧
    (0 : ℝ) ≤ (evaluate zeroVoltConfig).flightTime := by
  refine ⟨rfl, ?_, ?_⟩
  · rw [evaluate_totalWeight]
    norm_num [zeroVoltConfig, regressionConfig]
  · rw [(evaluate_degenerate zeroVoltConfig (Or.inr rfl)).2.2.2]

/-- C4 amended: whenever no parameter is selected for optimization,
`run_optimization` returns the NoParamsSelected outcome for every template
and constraints; it never evaluates the template or produces a score. -/
theorem no_params_outcome (t : VehicleConfiguration)
    (cons : OptimizationConstraints) :
    runOptimization t ⟨false, false, false, false⟩ cons =
      OptimizationOutcome.noParams := rfl

/-- A candidate qualifies when it passes both constraint checks and the
minimum thrust-to-weight bar of the loop. -/
def Qual (t : VehicleConfiguration) (cons : OptimizationConstraints)
    (c : Candidate) : Prop :=
  (optCandidateMetrics t c).totalWeight ≤ cons.maxWeight ∧
  cons.minFlightTime ≤ (optCandidateMetrics t c).flightTime ∧
  1 ≤ (optCandidateMetrics t c).twr

/-- Loop invariant while no best configuration has been recorded: every
visited candidate either fails a constraint, misses the twr bar, or has a
nonpositive score. -/
def LoopInvNone (t : VehicleConfiguration) (cons : OptimizationConstraints)
    (v : List Candidate) : Prop :=
  ∀ c ∈ v, ¬(Qual t cons c ∧ 0 < optScore t c)

/-- Loop invariant once a best configuration is recorded: it stores its own
candidate's metrics and score, qualifies, has positive score, dominates all
visited qualifying candidates, and strictly beats the qualifying candidates
visited before it. -/
def LoopInvSome (t : VehicleConfiguration) (cons : OptimizationConstraints)
    (v : List Candidate) (b : BestConfig) : Prop :=
  b.metrics = optCandidateMetrics t b.candidate ∧
  b.score = optScore t b.candidate ∧
  Qual t cons b.candidate ∧
  0 < b.score ∧
  (∀ c ∈ v, Qual t cons c → optScore t c ≤ b.score) ∧
  ∃ l₁ l₂, v = l₁ ++ b.candidate :: l₂ ∧
    ∀ c ∈ l₁, Qual t cons c → optScore t c < b.score

/-- The full loop invariant of `run_optimization` relating the visited
prefix of the grid to the `(best_config, best_score)` state. -/
def LoopInv (t : VehicleConfiguration) (cons : OptimizationConstraints)
    (v : List Candidate) (s : Option BestConfig × ℝ) : Prop :=
  match s.1 with
  | none => s.2 = 0 ∧ LoopInvNone t cons v
  | some b => s.2 = b.score ∧ LoopInvSome t cons v b

/-- A step that leaves the state unchanged preserves the invariant provided
the new candidate cannot beat the recorded state. -/
lemma loopInv_extend (t : VehicleConfiguration) (cons : OptimizationConstraints)
    (v : List Candidate) (s : Option BestConfig × ℝ) (c : Candidate)
    (h : LoopInv t cons v s)
    (hnone : s.1 = none → ¬(Qual t cons c ∧ 0 < optScore t c))
    (hsome : ∀ b : BestConfig, s.1 = some b → Qual t cons c →
      optScore t c ≤ b.score) :
    LoopInv t cons (v ++ [c]) s := by
  obtain ⟨ob, bs⟩ := s
  cases ob with
  | none =>
    obtain ⟨hbs, hinv⟩ := h
    refine ⟨hbs, fun x hx => ?_⟩
    rcases List.mem_append.mp hx with hx | hx
    · exact hinv x hx
    · rw [List.mem_singleton] at hx
      subst hx
      exact hnone rfl
  | some b =>
    obtain ⟨hbs, hmet, hsc, hq, hpos, hall, l₁, l₂, hsplit, hfirst⟩ := h
    refine ⟨hbs, hmet, hsc, hq, hpos, fun x hx hqx => ?_,
      l₁, l₂ ++ [c], ?_, hfirst⟩
    · rcases List.mem_append.mp hx with hx | hx
      · exact hall x hx hqx
      · rw [List.mem_singleton] at hx
        subst hx
        exact hsome b rfl hqx
    · rw [hsplit]
      simp

/-- One iteration of the loop preserves the invariant. -/
lemma loopInv_step (t : VehicleConfiguration) (cons : OptimizationConstraints)
    (v : List Candidate) (s : Option BestConfig × ℝ) (c : Candidate)
    (h : LoopInv t cons v s) :
    LoopInv t cons (v ++ [c]) (optStep t cons s c) := by
  obtain ⟨ob, bs⟩ := s
  simp only [optStep]
  by_cases h1 : cons.maxWeight < (optCandidateMetrics t c).totalWeight
  · rw [if_pos h1]
    refine loopInv_extend t cons v (ob, bs) c h (fun _ => ?_) (fun b _ hq => ?_)
    · rintro ⟨hq, -⟩
      exact absurd hq.1 (not_le.mpr h1)
    · exact absurd hq.1 (not_le.mpr h1)
  · rw [if_neg h1]
    by_cases h2 : (optCandidateMetrics t c).flightTime < cons.minFlightTime
    · rw [if_pos h2]
      refine loopInv_extend t cons v (ob, bs) c h (fun _ => ?_) (fun b _ hq => ?_)
      · rintro ⟨hq, -⟩
        exact absurd hq.2.1 (not_le.mpr h2)
      · exact absurd hq.2.1 (not_le.mpr h2)
    · rw [if_neg h2]
      by_cases h3 : bs < optScore t c ∧ 1 ≤ (optCandidateMetrics t c).twr
      · rw [if_pos h3]
        have hqc : Qual t cons c := ⟨not_lt.mp h1, not_lt.mp h2, h3.2⟩
        cases ob with
        | none =>
          obtain ⟨hbs, hinv⟩ := h
          subst hbs
          have hposc : 0 < optScore t c := h3.1
          have hle : ∀ x ∈ v, Qual t cons x → optScore t x ≤ 0 := by
            intro x hx hqx
            exact le_of_not_lt fun hpos => hinv x hx ⟨hqx, hpos⟩
          refine ⟨rfl, rfl, rfl, hqc, hposc, fun x hx hqx => ?_, v, [], rfl,
            fun x hx hqx => lt_of_le_of_lt (hle x hx hqx) hposc⟩
          rcases List.mem_append.mp hx with hx | hx
          · exact le_trans (hle x hx hqx) (le_of_lt hposc)
          · rw [List.mem_singleton] at hx
            subst hx
            exact le_rfl
        | some b =>
          obtain ⟨hbs, hmet, hsc, hq, hpos, hall, l₁, l₂, hsplit, hfirst⟩ := h
          have hlt : b.score < optScore t c := hbs ▸ h3.1
          refine ⟨rfl, rfl, rfl, hqc, lt_trans hpos hlt, fun x hx hqx => ?_,
            v, [], rfl,
            fun x hx hqx => lt_of_le_of_lt (hall x hx hqx) hlt⟩
          rcases List.mem_append.mp hx with hx | hx
          · exact le_trans (hall x hx hqx) (le_of_lt hlt)
          · rw [List.mem_singleton] at hx
            subst hx
            exact le_rfl
      · rw [if_neg h3]
        refine loopInv_extend t cons v (ob, bs) c h (fun hob => ?_) (fun b hob hq => ?_)
        · rintro ⟨hqc, hpos⟩
          have hob' : ob = none := hob
          subst hob'
          obtain ⟨hbs, -⟩ := h
          subst hbs
          exact h3 ⟨hpos, hqc.2.2⟩
        · have hob' : ob = some b := hob
          subst hob'
          obtain ⟨hbs, -⟩ := h
          have hnlt : ¬bs < optScore t c := fun hlt => h3 ⟨hlt, hq.2.2⟩
          exact hbs ▸ not_lt.mp hnlt

/-- Folding the loop body over any candidate list preserves the invariant. -/
lemma loopInv_foldl (t : VehicleConfiguration) (cons : OptimizationConstraints)
    (l : List Candidate) :
    ∀ (v : List Candidate) (s : Option BestConfig × ℝ), LoopInv t cons v s →
      LoopInv t cons (v ++ l) (l.foldl (optStep t cons) s) := by
  induction l with
  | nil =>
    intro v s h
    simpa using h
  | cons a l ih =>
    intro v s h
    have h2 := loopInv_step t cons v s a h
    have h3 := ih (v ++ [a]) (optStep t cons s a) h2
    rw [List.foldl_cons]
    simpa using h3

/-- The invariant holds for the full grid fold started from
`(best_config, best_score) = (None, 0)`. -/
lemma loopInv_grid (t : VehicleConfiguration) (cons : OptimizationConstraints)
    (ax : OptimizationAxes) :
    LoopInv t cons (candidateGrid t ax)
      ((candidateGrid t ax).foldl (optStep t cons) (none, 0)) := by
  have h0 : LoopInv t cons [] ((none : Option BestConfig), (0 : ℝ)) :=
    ⟨rfl, fun c hc => absurd hc (List.not_mem_nil c)⟩
  simpa using loopInv_foldl t cons (candidateGrid t ax) [] (none, 0) h0

lemma runOptimization_eq_found (t : VehicleConfiguration)
    (ax : OptimizationAxes) (cons : OptimizationConstraints) (b : BestConfig)
    (hsel : ax.anySelected = true)
    (hfold : ((candidateGrid t ax).foldl (optStep t cons) (none, 0)).1 = some b) :
    runOptimization t ax cons = OptimizationOutcome.found b := by
  rw [runOptimization, if_pos hsel, hfold]

lemma runOptimization_eq_infeasible (t : VehicleConfiguration)
    (ax : OptimizationAxes) (cons : OptimizationConstraints)
    (hsel : ax.anySelected = true)
    (hfold : ((candidateGrid t ax).foldl (optStep t cons) (none, 0)).1 = none) :
    runOptimization t ax cons = OptimizationOutcome.infeasible := by
  rw [runOptimization, if_pos hsel, hfold]

/-- C2 amended: when at least one parameter is selected, the optimizer
returns Infeasible exactly when no candidate in the grid satisfies both
constraints, reaches twr ≥ 1, and has a strictly positive score (the loop
starts `best_score = 0` and requires `score > best_score`, so qualifying
candidates with nonpositive score are ignored). -/
theorem optimize_infeasible_iff (t : VehicleConfiguration)
    (ax : OptimizationAxes) (cons : OptimizationConstraints)
    (h : ax.anySelected = true) :
    runOptimization t ax cons = OptimizationOutcome.infeasible ↔
      ∀ c ∈ candidateGrid t ax,
        ¬((optCandidateMetrics t c).totalWeight ≤ cons.maxWeight ∧
          cons.minFlightTime ≤ (optCandidateMetrics t c).flightTime ∧
          1 ≤ (optCandidateMetrics t c).twr ∧ 0 < optScore t c) := by
  have hI := loopInv_grid t cons ax
  rcases hsplit : (candidateGrid t ax).foldl (optStep t cons) (none, 0) with ⟨ob, bs⟩
  rw [hsplit] at hI
  cases ob with
  | none =>
    rw [runOptimization_eq_infeasible t ax cons h (by rw [hsplit])]
    obtain ⟨-, hN⟩ := hI
    constructor
    · intro _ c hc hx
      exact hN c hc ⟨⟨hx.1, hx.2.1, hx.2.2.1⟩, hx.2.2.2⟩
    · intro _
      rfl
  | some b =>
    rw [runOptimization_eq_found t ax cons b h (by rw [hsplit])]
    obtain ⟨-, hmet, hsc, hq, hpos, hall, l₁, l₂, hveq, -⟩ := hI
    constructor
    · intro hh
      exact OptimizationOutcome.noConfusion hh
    · intro hall'
      exfalso
      have hmem : b.candidate ∈ candidateGrid t ax := by
        rw [hveq]
        exact List.mem_append_right _ (List.mem_cons_self _ _)
      exact hall' b.candidate hmem ⟨hq.1, hq.2.1, hq.2.2, hsc ▸ hpos⟩

/-- Witness for C2 amended: the iff instantiated on the regression template
with the diameter axis selected and the default constraints. -/
theorem optimize_infeasible_iff_witness :
    runOptimization regressionConfig ⟨true, false, false, false⟩
        ⟨2000, 10, 500⟩ = OptimizationOutcome.infeasible ↔
      ∀ c ∈ candidateGrid regressionConfig ⟨true, false, false, false⟩,
        ¬((optCandidateMetrics regressionConfig c).totalWeight ≤
            (OptimizationConstraints.mk 2000 10 500).maxWeight ∧
          (OptimizationConstraints.mk 2000 10 500).minFlightTime ≤
            (optCandidateMetrics regressionConfig c).flightTime ∧
          1 ≤ (optCandidateMetrics regressionConfig c).twr ∧
          0 < optScore regressionConfig c) :=
  optimize_infeasible_iff regressionConfig ⟨true, false, false, false⟩
    ⟨2000, 10, 500⟩ rfl

/-- C3: a Found outcome stores its candidate's metrics, satisfies both
constraints and twr ≥ 1, its score is the documented weighted score of its
own metrics, that score is maximal among all qualifying candidates of the
grid, and every qualifying candidate strictly before the winner in the
iteration order scores strictly less (so the first candidate wins ties and a
later equal score never replaces the best). -/
theorem optimize_found_spec (t : VehicleConfiguration)
    (ax : OptimizationAxes) (cons : OptimizationConstraints) (b : BestConfig)
    (h : runOptimization t ax cons = OptimizationOutcome.found b) :
    b.metrics = optCandidateMetrics t b.candidate ∧
    b.score = b.metrics.twr * 30 + b.metrics.flightTime * 2 -
      b.metrics.totalWeight * 0.01 - b.metrics.power * 0.1 ∧
    b.metrics.totalWeight ≤ cons.maxWeight ∧
    cons.minFlightTime ≤ b.metrics.flightTime ∧
    1 ≤ b.metrics.twr ∧
    (∀ c ∈ candidateGrid t ax,
      (optCandidateMetrics t c).totalWeight ≤ cons.maxWeight →
      cons.minFlightTime ≤ (optCandidateMetrics t c).flightTime →
      1 ≤ (optCandidateMetrics t c).twr →
      optScore t c ≤ b.score) ∧
    ∃ l₁ l₂, candidateGrid t ax = l₁ ++ b.candidate :: l₂ ∧
      ∀ c ∈ l₁,
        (optCandidateMetrics t c).totalWeight ≤ cons.maxWeight →
        cons.minFlightTime ≤ (optCandidateMetrics t c).flightTime →
        1 ≤ (optCandidateMetrics t c).twr →
        optScore t c < b.score := by
  by_cases hsel : ax.anySelected = true
  · have hI := loopInv_grid t cons ax
    rcases hsplit : (candidateGrid t ax).foldl (optStep t cons) (none, 0) with ⟨ob, bs⟩
    rw [hsplit] at hI
    cases ob with
    | none =>
      rw [runOptimization_eq_infeasible t ax cons hsel (by rw [hsplit])] at h
      exact OptimizationOutcome.noConfusion h
    | some b' =>
      rw [runOptimization_eq_found t ax cons b' hsel (by rw [hsplit])] at h
      injection h with h'
      subst h'
      obtain ⟨-, hmet, hsc, hq, hpos, hall, l₁, l₂, hveq, hfirst⟩ := hI
      refine ⟨hmet, ?_, ?_, ?_, ?_, fun c hc hw hft htwr => hall c hc ⟨hw, hft, htwr⟩,
        l₁, l₂, hveq, fun c hc hw hft htwr => hfirst c hc ⟨hw, hft, htwr⟩⟩
      · rw [hmet]
        exact hsc
      · rw [hmet]
        exact hq.1
      · rw [hmet]
        exact hq.2.1
      · rw [hmet]
        exact hq.2.2
  · rw [runOptimization, if_neg hsel] at h
    exact OptimizationOutcome.noConfusion h

/-- Lower bound for π³ used to evaluate concrete thrust values. -/
lemma pi_cube_lb : (31.006 : ℝ) ≤ Real.pi ^ 3 := by
  have h : (3.141592 : ℝ) ≤ Real.pi := le_of_lt Real.pi_gt_d6
  calc (31.006 : ℝ) ≤ 3.141592 ^ 3 := by norm_num
  _ ≤ Real.pi ^ 3 := pow_le_pow_left₀ (by norm_num) h 3

/-- Upper bound for π³ used to evaluate concrete thrust values. -/
lemma pi_cube_ub : Real.pi ^ 3 ≤ (31.007 : ℝ) := by
  have h : Real.pi ≤ 3.141593 := le_of_lt Real.pi_lt_d6
  calc Real.pi ^ 3 ≤ 3.141593 ^ 3 := pow_le_pow_left₀ Real.pi_pos.le h 3
  _ ≤ (31.007 : ℝ) := by norm_num

/-- Closed form of the thrust model at pitch 0 (advance ratio 0) with the
default efficiency 0.8: a rational coefficient times π³. -/
lemma thrust_pitch_zero_closed (d rpm : ℝ) (hrpm : 0 < rpm) :
    calculate_propeller_thrust d 0 rpm 0.8 =
      0.098 * (d * 0.0254 / 2) ^ 2 * (rpm / 60 * (d * 0.0254)) ^ 2 * 101.97 *
        Real.pi ^ 3 := by
  simp only [calculate_propeller_thrust, air_density]
  rw [if_pos hrpm]
  have hzero : rpm * (0 * 0.0254) / 60 / (rpm * (d * 0.0254) / 60) = 0 := by
    norm_num
  rw [hzero, sub_zero]
  rw [show (0.1 * 1 * 0.8 : ℝ) = 0.08 by norm_num]
  rw [max_eq_right (by norm_num : (0 : ℝ) ≤ 0.08)]
  rw [max_eq_right (by positivity :
    (0 : ℝ) ≤ 0.08 * 1.225 * (Real.pi * (d * 0.0254 / 2) ^ 2) *
      (rpm / 60 * Real.pi * (d * 0.0254)) ^ 2 * 101.97)]
  ring

/-- Closed form of the power model at the default efficiency 0.85 in terms
of the real square root. -/
lemma power_closed (x : ℝ) (hx : 0 ≤ x) :
    calculate_power_consumption x 0.85 =
      x / 101.97 * Real.sqrt (x / 101.97) / 8.5 := by
  rw [calculate_power_consumption,
    rpow_onePointFive _ (div_nonneg hx (by norm_num))]
  norm_num

/-- The flight-time model never returns a negative number of minutes for
nonnegative capacity and voltage. -/
lemma flight_time_nonneg (cap p v : ℝ) (hcap : 0 ≤ cap) (hv : 0 ≤ v) :
    0 ≤ calculate_flight_time cap p v := by
  rw [calculate_flight_time]
  split
  · exact le_rfl
  · next hp =>
    have hp' : 0 < p := not_le.mp hp
    have h1 : 0 ≤ cap / 1000 / (p / v) :=
      div_nonneg (div_nonneg hcap (by norm_num)) (div_nonneg hp'.le hv)
    nlinarith

/-- Template for the C2 counterexample: a 20-inch zero-pitch prop on a
kv = 5000 motor at 48 V (rpm 240000), one motor, a single 1000 g frame as
the only weight.  The resulting thrust is enormous, so twr ≥ 1 holds, but
the power term drives every score below 0. -/
noncomputable def c2Template : VehicleConfiguration :=
  ⟨20, 0, 80, 5000, 85, 0, 1, 48, 5000, 0, 0, 1000, 0, 0, 0, 0⟩

/-- Axes for the C2 counterexample: optimize battery capacity only. -/
def c2Axes : OptimizationAxes := ⟨false, false, true, false⟩

/-- Constraints for the C2 counterexample: generous weight cap, no minimum
flight time. -/
noncomputable def c2Constraints : OptimizationConstraints := ⟨2000, 0, 500⟩

lemma c2_grid : candidateGrid c2Template c2Axes =
    [⟨20, 5000, 3000, 1⟩, ⟨20, 5000, 5000, 1⟩,
     ⟨20, 5000, 8000, 1⟩, ⟨20, 5000, 10000, 1⟩] := by
  simp [candidateGrid, c2Template, c2Axes]

lemma c2_rpm : calculate_motor_rpm 48 5000 0 = 240000 := by
  rw [calculate_motor_rpm,
    show ((48 : ℝ) - 0 * 0.1) = 48 by norm_num,
    max_eq_right (by norm_num : (0 : ℝ) ≤ 48)]
  norm_num

lemma c2_weight (cap : ℝ) :
    (optCandidateMetrics c2Template ⟨20, 5000, cap, 1⟩).totalWeight = 1000 := by
  rw [optMetrics_totalWeight]
  norm_num [c2Template]

lemma c2_thrust (cap : ℝ) :
    (optCandidateMetrics c2Template ⟨20, 5000, cap, 1⟩).totalThrust =
      calculate_propeller_thrust 20 0 240000 0.8 := by
  rw [optMetrics_totalThrust]
  norm_num [c2Template, c2_rpm]

lemma c2_twr (cap : ℝ) :
    (optCandidateMetrics c2Template ⟨20, 5000, cap, 1⟩).twr =
      calculate_propeller_thrust 20 0 240000 0.8 / 1000 := by
  rw [optMetrics_twr, c2_weight, c2_thrust]
  rw [if_pos (by norm_num : (0 : ℝ) < 1000)]

lemma c2_power (cap : ℝ) :
    (optCandidateMetrics c2Template ⟨20, 5000, cap, 1⟩).power =
      calculate_power_consumption (calculate_propeller_thrust 20 0 240000 0.8)
        0.85 := by
  rw [optMetrics_power]
  norm_num [c2Template, c2_rpm]

lemma c2_ft (cap : ℝ) :
    (optCandidateMetrics c2Template ⟨20, 5000, cap, 1⟩).flightTime =
      calculate_flight_time cap
        (calculate_power_consumption
          (calculate_propeller_thrust 20 0 240000 0.8) 0.85) 48 := by
  rw [optMetrics_flightTime, c2_power]
  norm_num [c2Template]

lemma c2_thrust_lb :
    (82500000 : ℝ) ≤ calculate_propeller_thrust 20 0 240000 0.8 := by
  rw [thrust_pitch_zero_closed 20 240000 (by norm_num)]
  calc (82500000 : ℝ) ≤
      0.098 * (20 * 0.0254 / 2) ^ 2 * (240000 / 60 * (20 * 0.0254)) ^ 2 *
        101.97 * 31.006 := by norm_num
  _ ≤ 0.098 * (20 * 0.0254 / 2) ^ 2 * (240000 / 60 * (20 * 0.0254)) ^ 2 *
        101.97 * Real.pi ^ 3 :=
    mul_le_mul_of_nonneg_left pi_cube_lb (by norm_num)

lemma c2_thrust_ub :
    calculate_propeller_thrust 20 0 240000 0.8 ≤ (82600000 : ℝ) := by
  rw [thrust_pitch_zero_closed 20 240000 (by norm_num)]
  calc 0.098 * (20 * 0.0254 / 2) ^ 2 * (240000 / 60 * (20 * 0.0254)) ^ 2 *
        101.97 * Real.pi ^ 3 ≤
      0.098 * (20 * 0.0254 / 2) ^ 2 * (240000 / 60 * (20 * 0.0254)) ^ 2 *
        101.97 * 31.007 :=
    mul_le_mul_of_nonneg_left pi_cube_ub (by norm_num)
  _ ≤ (82600000 : ℝ) := by norm_num

lemma c2_power_lb :
    (85000000 : ℝ) ≤ calculate_power_consumption
      (calculate_propeller_thrust 20 0 240000 0.8) 0.85 := by
  have hT := c2_thrust_lb
  have hTnn : (0:ℝ) ≤ calculate_propeller_thrust 20 0 240000 0.8 :=
    thrust_nonneg 20 0 240000 0.8
  rw [power_closed _ hTnn]
  have htN : (809000 : ℝ) ≤ calculate_propeller_thrust 20 0 240000 0.8 / 101.97 := by
    rw [le_div_iff₀ (by norm_num : (0:ℝ) < 101.97)]
    linarith
  have hsq : (899 : ℝ) ≤
      Real.sqrt (calculate_propeller_thrust 20 0 240000 0.8 / 101.97) := by
    rw [Real.le_sqrt (by norm_num) (div_nonneg hTnn (by norm_num))]
    nlinarith
  rw [le_div_iff₀ (by norm_num : (0:ℝ) < 8.5)]
  have hprod : (809000 : ℝ) * 899 ≤
      calculate_propeller_thrust 20 0 240000 0.8 / 101.97 *
        Real.sqrt (calculate_propeller_thrust 20 0 240000 0.8 / 101.97) :=
    mul_le_mul htN hsq (by norm_num) (le_trans (by norm_num) htN)
  linarith

lemma c2_score_nonpos (cap : ℝ) (_h0 : 0 ≤ cap) (h1 : cap ≤ 10000) :
    optScore c2Template ⟨20, 5000, cap, 1⟩ ≤ 0 := by
  rw [optScore, c2_twr, c2_ft, c2_weight, c2_power]
  have hTub := c2_thrust_ub
  have hPlb := c2_power_lb
  have hft : calculate_flight_time cap
      (calculate_power_consumption
        (calculate_propeller_thrust 20 0 240000 0.8) 0.85) 48 ≤ 1 := by
    rw [calculate_flight_time]
    split
    · norm_num
    · have hP48 : (1700000 : ℝ) ≤
          calculate_power_consumption
            (calculate_propeller_thrust 20 0 240000 0.8) 0.85 / 48 := by
        rw [le_div_iff₀ (by norm_num : (0:ℝ) < 48)]
        linarith
      have hcap' : cap / 1000 ≤ 10 := by linarith
      have hd : cap / 1000 /
          (calculate_power_consumption
            (calculate_propeller_thrust 20 0 240000 0.8) 0.85 / 48) ≤
          10 / 1700000 :=
        div_le_div₀ (by norm_num) hcap' (by norm_num) hP48
      nlinarith
  nlinarith

lemma c2_step (cap : ℝ) (h0 : 0 ≤ cap) (h1 : cap ≤ 10000) :
    optStep c2Template c2Constraints ((none : Option BestConfig), (0 : ℝ))
      ⟨20, 5000, cap, 1⟩ = (none, 0) := by
  have hc1 : ¬(c2Constraints.maxWeight <
      (optCandidateMetrics c2Template ⟨20, 5000, cap, 1⟩).totalWeight) := by
    rw [c2_weight]
    norm_num [c2Constraints]
  have hc2 : ¬((optCandidateMetrics c2Template ⟨20, 5000, cap, 1⟩).flightTime <
      c2Constraints.minFlightTime) := by
    rw [c2_ft]
    have hmin : c2Constraints.minFlightTime = 0 := rfl
    rw [hmin]
    exact not_lt.mpr (flight_time_nonneg _ _ _ h0 (by norm_num))
  have hc3 : ¬((0 : ℝ) < optScore c2Template ⟨20, 5000, cap, 1⟩ ∧
      1 ≤ (optCandidateMetrics c2Template ⟨20, 5000, cap, 1⟩).twr) := by
    rintro ⟨hpos, -⟩
    exact absurd hpos (not_lt.mpr (c2_score_nonpos cap h0 h1))
  simp only [optStep, Prod.snd]
  rw [if_neg hc1, if_neg hc2, if_neg hc3]

lemma c2_fold : (candidateGrid c2Template c2Axes).foldl
    (optStep c2Template c2Constraints) (none, 0) = (none, 0) := by
  rw [c2_grid]
  rw [List.foldl_cons, c2_step 3000 (by norm_num) (by norm_num),
    List.foldl_cons, c2_step 5000 (by norm_num) (by norm_num),
    List.foldl_cons, c2_step 8000 (by norm_num) (by norm_num),
    List.foldl_cons, c2_step 10000 (by norm_num) (by norm_num),
    List.foldl_nil]

/-- C2 counterexample: on this template the grid holds a candidate meeting
both constraints with twr ≥ 1, yet the optimizer returns Infeasible, because
every qualifying candidate's score is ≤ 0 and the loop demands
`score > best_score` with `best_score` starting at 0. -/
theorem optimize_infeasible_despite_feasible :
    runOptimization c2Template c2Axes c2Constraints =
      OptimizationOutcome.infeasible ∧
    (⟨20, 5000, 3000, 1⟩ : Candidate) ∈ candidateGrid c2Template c2Axes ∧
    (optCandidateMetrics c2Template ⟨20, 5000, 3000, 1⟩).totalWeight ≤
      c2Constraints.maxWeight ∧
    c2Constraints.minFlightTime ≤
      (optCandidateMetrics c2Template ⟨20, 5000, 3000, 1⟩).flightTime ∧
    1 ≤ (optCandidateMetrics c2Template ⟨20, 5000, 3000, 1⟩).twr := by
  refine ⟨?_, ?_, ?_, ?_, ?_⟩
  · exact runOptimization_eq_infeasible _ _ _ rfl (by rw [c2_fold])
  · rw [c2_grid]
    simp
  · rw [c2_weight]
    norm_num [c2Constraints]
  · rw [c2_ft]
    have hmin : c2Constraints.minFlightTime = 0 := rfl
    rw [hmin]
    exact flight_time_nonneg _ _ _ (by norm_num) (by norm_num)
  · rw [c2_twr, le_div_iff₀ (by norm_num : (0:ℝ) < 1000)]
    have := c2_thrust_lb
    linarith

/-- Template for the C3 witness run: a 10-inch zero-pitch prop, kv = 100 at
1 V (rpm 100), one motor, a tiny 0.5 g frame as the only weight; the thrust
of about 0.9 g comfortably exceeds the weight, and the power draw is tiny,
so every capacity candidate qualifies with positive, strictly increasing
score. -/
noncomputable def c3Template : VehicleConfiguration :=
  ⟨10, 0, 80, 100, 85, 0, 1, 1, 5000, 0, 0, 0.5, 0, 0, 0, 0⟩

/-- Axes for the C3 witness run: optimize battery capacity only. -/
def c3Axes : OptimizationAxes := ⟨false, false, true, false⟩

/-- Constraints for the C3 witness run. -/
noncomputable def c3Constraints : OptimizationConstraints := ⟨2000, 0, 500⟩

lemma c3_grid : candidateGrid c3Template c3Axes =
    [⟨10, 100, 3000, 1⟩, ⟨10, 100, 5000, 1⟩,
     ⟨10, 100, 8000, 1⟩, ⟨10, 100, 10000, 1⟩] := by
  simp [candidateGrid, c3Template, c3Axes]

lemma c3_rpm : calculate_motor_rpm 1 100 0 = 100 := by
  rw [calculate_motor_rpm,
    show ((1 : ℝ) - 0 * 0.1) = 1 by norm_num,
    max_eq_right (by norm_num : (0 : ℝ) ≤ 1)]
  norm_num

lemma c3_weight (cap : ℝ) :
    (optCandidateMetrics c3Template ⟨10, 100, cap, 1⟩).totalWeight = 0.5 := by
  rw [optMetrics_totalWeight]
  norm_num [c3Template]

lemma c3_thrust (cap : ℝ) :
    (optCandidateMetrics c3Template ⟨10, 100, cap, 1⟩).totalThrust =
      calculate_propeller_thrust 10 0 100 0.8 := by
  rw [optMetrics_totalThrust]
  norm_num [c3Template, c3_rpm]

lemma c3_twr (cap : ℝ) :
    (optCandidateMetrics c3Template ⟨10, 100, cap, 1⟩).twr =
      calculate_propeller_thrust 10 0 100 0.8 / 0.5 := by
  rw [optMetrics_twr, c3_weight, c3_thrust]
  rw [if_pos (by norm_num : (0 : ℝ) < 0.5)]

lemma c3_power (cap : ℝ) :
    (optCandidateMetrics c3Template ⟨10, 100, cap, 1⟩).power =
      calculate_power_consumption (calculate_propeller_thrust 10 0 100 0.8)
        0.85 := by
  rw [optMetrics_power]
  norm_num [c3Template, c3_rpm]

lemma c3_ft (cap : ℝ) :
    (optCandidateMetrics c3Template ⟨10, 100, cap, 1⟩).flightTime =
      calculate_flight_time cap
        (calculate_power_consumption
          (calculate_propeller_thrust 10 0 100 0.8) 0.85) 1 := by
  rw [optMetrics_flightTime, c3_power]
  norm_num [c3Template]

lemma c3_T_lb : (0.89 : ℝ) ≤ calculate_propeller_thrust 10 0 100 0.8 := by
  rw [thrust_pitch_zero_closed 10 100 (by norm_num)]
  calc (0.89 : ℝ) ≤
      0.098 * (10 * 0.0254 / 2) ^ 2 * (100 / 60 * (10 * 0.0254)) ^ 2 *
        101.97 * 31.006 := by norm_num
  _ ≤ 0.098 * (10 * 0.0254 / 2) ^ 2 * (100 / 60 * (10 * 0.0254)) ^ 2 *
        101.97 * Real.pi ^ 3 :=
    mul_le_mul_of_nonneg_left pi_cube_lb (by norm_num)

lemma c3_T_ub : calculate_propeller_thrust 10 0 100 0.8 ≤ (0.9 : ℝ) := by
  rw [thrust_pitch_zero_closed 10 100 (by norm_num)]
  calc 0.098 * (10 * 0.0254 / 2) ^ 2 * (100 / 60 * (10 * 0.0254)) ^ 2 *
        101.97 * Real.pi ^ 3 ≤
      0.098 * (10 * 0.0254 / 2) ^ 2 * (100 / 60 * (10 * 0.0254)) ^ 2 *
        101.97 * 31.007 :=
    mul_le_mul_of_nonneg_left pi_cube_ub (by norm_num)
  _ ≤ (0.9 : ℝ) := by norm_num

lemma c3_P_pos : 0 < calculate_power_consumption
    (calculate_propeller_thrust 10 0 100 0.8) 0.85 := by
  have hT := c3_T_lb
  have hTnn : (0:ℝ) ≤ calculate_propeller_thrust 10 0 100 0.8 :=
    thrust_nonneg 10 0 100 0.8
  rw [power_closed _ hTnn]
  have htN : (0:ℝ) < calculate_propeller_thrust 10 0 100 0.8 / 101.97 :=
    div_pos (by linarith) (by norm_num)
  have hsq : 0 < Real.sqrt (calculate_propeller_thrust 10 0 100 0.8 / 101.97) :=
    Real.sqrt_pos.mpr htN
  positivity

lemma c3_P_ub : calculate_power_consumption
    (calculate_propeller_thrust 10 0 100 0.8) 0.85 ≤ 1 := by
  have hT := c3_T_ub
  have hTnn : (0:ℝ) ≤ calculate_propeller_thrust 10 0 100 0.8 :=
    thrust_nonneg 10 0 100 0.8
  rw [power_closed _ hTnn]
  have htN : calculate_propeller_thrust 10 0 100 0.8 / 101.97 ≤ 0.01 := by
    rw [div_le_iff₀ (by norm_num : (0:ℝ) < 101.97)]
    linarith
  have htNnn : (0:ℝ) ≤ calculate_propeller_thrust 10 0 100 0.8 / 101.97 :=
    div_nonneg hTnn (by norm_num)
  have hsq : Real.sqrt (calculate_propeller_thrust 10 0 100 0.8 / 101.97) ≤ 0.1 :=
    (Real.sqrt_le_left (by norm_num)).mpr (by nlinarith)
  have hprod : calculate_propeller_thrust 10 0 100 0.8 / 101.97 *
      Real.sqrt (calculate_propeller_thrust 10 0 100 0.8 / 101.97) ≤
      0.01 * 0.1 :=
    mul_le_mul htN hsq (Real.sqrt_nonneg _) (by norm_num)
  rw [div_le_iff₀ (by norm_num : (0:ℝ) < 8.5)]
  linarith

lemma c3_twr_ge (cap : ℝ) :
    1 ≤ (optCandidateMetrics c3Template ⟨10, 100, cap, 1⟩).twr := by
  rw [c3_twr, le_div_iff₀ (by norm_num : (0:ℝ) < 0.5)]
  have := c3_T_lb
  linarith

lemma c3_ft_formula (cap : ℝ) :
    calculate_flight_time cap
      (calculate_power_consumption
        (calculate_propeller_thrust 10 0 100 0.8) 0.85) 1 =
      cap / 1000 /
        (calculate_power_consumption
          (calculate_propeller_thrust 10 0 100 0.8) 0.85 / 1) * 60 := by
  rw [calculate_flight_time, if_neg (not_le.mpr c3_P_pos)]

lemma c3_score_pos (cap : ℝ) (hcap : 0 ≤ cap) :
    0 < optScore c3Template ⟨10, 100, cap, 1⟩ := by
  rw [optScore, c3_twr, c3_weight, c3_power, c3_ft]
  have htwr : (0.5 : ℝ) ≤ calculate_propeller_thrust 10 0 100 0.8 := by
    have := c3_T_lb
    linarith
  have hft : 0 ≤ calculate_flight_time cap
      (calculate_power_consumption
        (calculate_propeller_thrust 10 0 100 0.8) 0.85) 1 :=
    flight_time_nonneg _ _ _ hcap (by norm_num)
  have hP := c3_P_ub
  have hdiv : (1 : ℝ) ≤ calculate_propeller_thrust 10 0 100 0.8 / 0.5 := by
    rw [le_div_iff₀ (by norm_num : (0:ℝ) < 0.5)]
    linarith
  linarith

lemma c3_score_lt (a b : ℝ) (hab : a < b) :
    optScore c3Template ⟨10, 100, a, 1⟩ <
      optScore c3Template ⟨10, 100, b, 1⟩ := by
  rw [optScore, optScore, c3_twr, c3_twr, c3_weight, c3_weight, c3_power,
    c3_power, c3_ft, c3_ft, c3_ft_formula, c3_ft_formula]
  have hP : 0 < calculate_power_consumption
      (calculate_propeller_thrust 10 0 100 0.8) 0.85 := c3_P_pos
  have h : a / 1000 /
      (calculate_power_consumption
        (calculate_propeller_thrust 10 0 100 0.8) 0.85 / 1) * 60 <
      b / 1000 /
      (calculate_power_consumption
        (calculate_propeller_thrust 10 0 100 0.8) 0.85 / 1) * 60 := by
    gcongr
  linarith

lemma c3_step_update (b : Option BestConfig) (s : ℝ) (cap : ℝ) (hcap : 0 ≤ cap)
    (hs : s < optScore c3Template ⟨10, 100, cap, 1⟩) :
    optStep c3Template c3Constraints (b, s) ⟨10, 100, cap, 1⟩ =
      (some ⟨⟨10, 100, cap, 1⟩,
        optCandidateMetrics c3Template ⟨10, 100, cap, 1⟩,
        optScore c3Template ⟨10, 100, cap, 1⟩⟩,
       optScore c3Template ⟨10, 100, cap, 1⟩) := by
  have hc1 : ¬(c3Constraints.maxWeight <
      (optCandidateMetrics c3Template ⟨10, 100, cap, 1⟩).totalWeight) := by
    rw [c3_weight]
    norm_num [c3Constraints]
  have hc2 : ¬((optCandidateMetrics c3Template ⟨10, 100, cap, 1⟩).flightTime <
      c3Constraints.minFlightTime) := by
    rw [c3_ft]
    have hmin : c3Constraints.minFlightTime = 0 := rfl
    rw [hmin]
    exact not_lt.mpr (flight_time_nonneg _ _ _ hcap (by norm_num))
  have hc3 : s < optScore c3Template ⟨10, 100, cap, 1⟩ ∧
      1 ≤ (optCandidateMetrics c3Template ⟨10, 100, cap, 1⟩).twr :=
    ⟨hs, c3_twr_ge cap⟩
  simp only [optStep, Prod.snd]
  rw [if_neg hc1, if_neg hc2, if_pos hc3]

/-- The winning configuration of the C3 witness run: the largest battery. -/
noncomputable def c3Best : BestConfig :=
  ⟨⟨10, 100, 10000, 1⟩, optCandidateMetrics c3Template ⟨10, 100, 10000, 1⟩,
   optScore c3Template ⟨10, 100, 10000, 1⟩⟩

lemma c3_fold : (candidateGrid c3Template c3Axes).foldl
    (optStep c3Template c3Constraints) (none, 0) =
    (some c3Best, optScore c3Template ⟨10, 100, 10000, 1⟩) := by
  rw [c3_grid, List.foldl_cons,
    c3_step_update none 0 3000 (by norm_num) (c3_score_pos 3000 (by norm_num)),
    List.foldl_cons,
    c3_step_update _ _ 5000 (by norm_num) (c3_score_lt 3000 5000 (by norm_num)),
    List.foldl_cons,
    c3_step_update _ _ 8000 (by norm_num) (c3_score_lt 5000 8000 (by norm_num)),
    List.foldl_cons,
    c3_step_update _ _ 10000 (by norm_num) (c3_score_lt 8000 10000 (by norm_num)),
    List.foldl_nil]
  rfl

lemma c3_run_found : runOptimization c3Template c3Axes c3Constraints =
    OptimizationOutcome.found c3Best :=
  runOptimization_eq_found c3Template c3Axes c3Constraints c3Best rfl
    (by rw [c3_fold])

/-- Witness for C3: on a concrete capacity-axis run that returns a Found
outcome, the winner qualifies, carries the documented score of its own
metrics, and dominates every qualifying candidate of the grid. -/
theorem optimize_found_spec_witness :
    1 ≤ c3Best.metrics.twr ∧
    c3Best.metrics.totalWeight ≤ c3Constraints.maxWeight ∧
    c3Constraints.minFlightTime ≤ c3Best.metrics.flightTime ∧
    c3Best.score = c3Best.metrics.twr * 30 + c3Best.metrics.flightTime * 2 -
      c3Best.metrics.totalWeight * 0.01 - c3Best.metrics.power * 0.1 ∧
    (∀ c ∈ candidateGrid c3Template c3Axes,
      (optCandidateMetrics c3Template c).totalWeight ≤ c3Constraints.maxWeight →
      c3Constraints.minFlightTime ≤ (optCandidateMetrics c3Template c).flightTime →
      1 ≤ (optCandidateMetrics c3Template c).twr →
      optScore c3Template c ≤ c3Best.score) := by
  have h := optimize_found_spec c3Template c3Axes c3Constraints c3Best
    c3_run_found
  exact ⟨h.2.2.2.2.1, h.2.2.1, h.2.2.2.1, h.2.1, h.2.2.2.2.2.1⟩
